import Mathlib

/-!
Verification of the ask-a-human question/response lifecycle.

Shallow embedding of:
- `backend-app/src/models/question.py` (Question model, `get_question`,
  `get_question_with_responses`, `update_question_status`)
- `backend-app/src/models/response.py` (Response model, `save_response`)
- `backend-app/src/utils/api_response.py` (HTTP response helpers)
- `backend-app/src/handlers/human_api.py` (`handle_get_question`,
  `handle_submit_response`)
- `backend-app/src/handlers/agent_questions.py` (`handle_get_question`)
- `sdk-python/src/ask_a_human/orchestrator.py` (`await_responses`)

Python JSON values that flow through the handlers are modelled by `JVal`;
crucially, Python's `isinstance(x, int)` is true for `bool` values because
`bool` is a subclass of `int`, and `pyIsInt` models exactly that.
Timestamps are modelled as integers (the code only ever stores them or
copies them; no reader in the repository compares a timestamp to a clock).
The DynamoDB tables are modelled by `Store`: a key→item map for the
questions table and an append-only list for the responses table.
-/

namespace AskAHuman

/-- A JSON value as seen by the Python handlers after `json.loads`.
Only the shapes that can reach the validated fields are modelled. -/
inductive JVal where
  | null
  | jb (b : Bool)
  | ji (n : Int)
  | js (s : String)
deriving DecidableEq, Repr

/-- Python `isinstance(x, int)`: true for `int` AND for `bool`
(`bool` is a subclass of `int` in Python). -/
def pyIsInt : JVal → Bool
  | .ji _ => true
  | .jb _ => true
  | _ => false

/-- Python `isinstance(x, str)`. -/
def pyIsStr : JVal → Bool
  | .js _ => true
  | _ => false

/-- The integer value Python uses when an `int`-typed value (possibly a
`bool`) is compared or stored: `True == 1`, `False == 0`. -/
def pyToInt : JVal → Int
  | .ji n => n
  | .jb b => if b then 1 else 0
  | _ => 0

/-- Python truthiness of a JSON value (`not x`). -/
def pyTruthy : JVal → Bool
  | .null => false
  | .jb b => b
  | .ji n => n != 0
  | .js s => s != ""

/-- Python `len` of a string value (0 for non-strings; only applied after
an `isinstance(x, str)` guard in the embedded code). -/
def pyStrLen : JVal → Nat
  | .js s => s.length
  | _ => 0

/-- Question status values (`QuestionStatus` in `question.py`). -/
inductive Status where
  | OPEN
  | PARTIAL
  | CLOSED
  | EXPIRED
deriving DecidableEq, Repr

/-- The status string stored in DynamoDB / sent over the wire. -/
def Status.str : Status → String
  | .OPEN => "OPEN"
  | .PARTIAL => "PARTIAL"
  | .CLOSED => "CLOSED"
  | .EXPIRED => "EXPIRED"

/-- Question type (`Literal["text", "multiple_choice"]`). -/
inductive QType where
  | text
  | multiple_choice
deriving DecidableEq, Repr

/-- The type string stored / sent over the wire. -/
def QType.str : QType → String
  | .text => "text"
  | .multiple_choice => "multiple_choice"

/-- The `Question` dataclass of `models/question.py`. Timestamps are
integers (ISO strings in the source; only their identity matters to the
embedded code). -/
structure Question where
  question_id : String
  prompt : String
  type : QType
  status : Status
  min_responses : Nat
  current_responses : Nat
  created_at : Int
  expires_at : Int
  options : Option (List String) := none
  audience : Option (List String) := none
  agent_id : Option String := none
  closed_at : Option Int := none
deriving DecidableEq, Repr

/-- The `Response` dataclass of `models/response.py`. `answer`,
`selected_option` and `confidence` keep the raw JSON value the handler
stored (Python `None` is `JVal.null`), which matters because a JSON
boolean can legally reach `selected_option` (see C10). -/
structure Response where
  question_id : String
  response_id : String
  created_at : Int
  answer : JVal := .null
  selected_option : JVal := .null
  confidence : JVal := .null
  fingerprint_hash : Option String := none
deriving DecidableEq, Repr

/-- The two DynamoDB tables: questions keyed by `question_id`, and the
append-only responses ledger. -/
structure Store where
  questions : String → Option Question
  responses : List Response

/-- `Question.create` (`question.py:57`): fresh question in status OPEN
with zero responses and `expires_at = created_at + timeout_seconds`.
The generated id is passed in (the source draws a UUID). -/
def Question.create (question_id : String) (prompt : String)
    (question_type : QType) (min_responses : Nat) (timeout_seconds : Int)
    (options : Option (List String)) (audience : Option (List String))
    (agent_id : Option String) (now : Int) : Question :=
  { question_id := question_id
    prompt := prompt
    type := question_type
    status := .OPEN
    min_responses := min_responses
    current_responses := 0
    created_at := now
    expires_at := now + timeout_seconds
    options := options
    audience := match audience with
      | some a => some a
      | none => some [("general")]
    agent_id := agent_id }

/-- `save_question` (`question.py:222`): `put_item` into the questions
table. -/
def save_question (s : Store) (q : Question) : Store :=
  { s with questions := fun id =>
      if id = q.question_id then some q else s.questions id }

/-- `get_question` (`question.py:232`): point lookup by id. Note: it
performs no expiry evaluation — it returns the stored item as-is. -/
def get_question (s : Store) (question_id : String) : Option Question :=
  s.questions question_id

/-- `save_response` (`response.py:126`): `put_item` into the responses
table, i.e. append to the ledger. -/
def save_response (s : Store) (r : Response) : Store :=
  { s with responses := s.responses ++ [r] }

/-- `update_question_status` (`question.py:365`): compute the new status
from `new_responses` and `min_responses`, then unconditionally write
`current_responses` and `status` (and `closed_at` when the question
closes) for the given key. Returns the new status string, paired with
the updated store. `now` stands for `datetime.now(timezone.utc)`. -/
def update_question_status (s : Store) (question_id : String)
    (new_responses : Nat) (min_responses : Nat) (now : Int) :
    Status × Store :=
  let new_status : Status :=
    if new_responses ≥ min_responses then .CLOSED
    else if new_responses > 0 then .PARTIAL
    else .OPEN
  let closed_at : Option Int :=
    if new_responses ≥ min_responses then some now else none
  let s' : Store :=
    { s with questions := fun id =>
        if id = question_id then
          match s.questions id with
          | some q => some { q with
              current_responses := new_responses
              status := new_status
              closed_at := match closed_at with
                | some t => some t
                | none => q.closed_at }
          | none => none
        else s.questions id }
  (new_status, s')

/-- A value inside a JSON response document (`api_response.py` bodies and
the dicts built by `to_agent_response` / `to_human_detail`). -/
inductive DVal where
  | str (v : String)
  | int (v : Int)
  | bool (v : Bool)
  | strList (v : List String)
  | dicts (v : List (List (String × DVal)))

/-- An API Gateway response: HTTP status code plus JSON body. Error
bodies carry the `error.code` and `error.message` fields built by
`error()` in `api_response.py`. -/
inductive RBody where
  | errorBody (code : String) (message : String)
  | jsonBody (fields : List (String × DVal))

structure HttpResponse where
  statusCode : Nat
  body : RBody

/-- `success` (`api_response.py:10`). -/
def success (fields : List (String × DVal)) : HttpResponse :=
  ⟨200, .jsonBody fields⟩

/-- `created` (`api_response.py:29`). -/
def created (fields : List (String × DVal)) : HttpResponse :=
  ⟨201, .jsonBody fields⟩

/-- `validation_error` (`api_response.py:84`): 400 with code
VALIDATION_ERROR. The structured `details` payload is not modelled. -/
def validation_error (message : String) : HttpResponse :=
  ⟨400, .errorBody ("VALIDATION_ERROR") message⟩

/-- `question_not_found` (`api_response.py:107`): 404. -/
def question_not_found : HttpResponse :=
  ⟨404, .errorBody ("QUESTION_NOT_FOUND")
    ("The requested question does not exist or has expired.")⟩

/-- `question_closed` (`api_response.py:131`): 410 Gone with code
QUESTION_CLOSED. -/
def question_closed : HttpResponse :=
  ⟨410, .errorBody ("QUESTION_CLOSED")
    ("This question is no longer accepting responses.")⟩

/-- `Question.to_agent_response` (`question.py:154`): the dict returned
to agent polling, optionally extended with the responses list. The keys
are exactly the ones the source writes, in source order; in particular
no vote-summary key is ever produced. -/
def Question.to_agent_response (q : Question)
    (responses : Option (List (List (String × DVal)))) :
    List (String × DVal) :=
  [(("question_id"), DVal.str q.question_id),
   (("status"), DVal.str q.status.str),
   (("prompt"), DVal.str q.prompt),
   (("type"), DVal.str q.type.str),
   (("required_responses"), DVal.int q.min_responses),
   (("current_responses"), DVal.int q.current_responses),
   (("expires_at"), DVal.int q.expires_at)]
  ++ (match q.options with
      | some opts => if opts.isEmpty then [] else [(("options"), DVal.strList opts)]
      | none => [])
  ++ (match q.closed_at with
      | some t => [(("closed_at"), DVal.int t)]
      | none => [])
  ++ (match responses with
      | some rs => [(("responses"), DVal.dicts rs)]
      | none => [])

/-- `Question.to_human_detail` (`question.py:199`): the dict returned by
the human single-question endpoint. -/
def Question.to_human_detail (q : Question) (can_answer : Bool) :
    List (String × DVal) :=
  [(("question_id"), DVal.str q.question_id),
   (("prompt"), DVal.str q.prompt),
   (("type"), DVal.str q.type.str),
   (("responses_needed"), DVal.int (max 0 (q.min_responses - q.current_responses : Int))),
   (("can_answer"), DVal.bool can_answer)]
  ++ (match q.options with
      | some opts => if opts.isEmpty then [] else [(("options"), DVal.strList opts)]
      | none => [])
  ++ (match q.audience with
      | some a => if a.isEmpty then [] else [(("audience"), DVal.strList a)]
      | none => [])

/-- `Response.to_api_response` (`response.py:112`): acknowledgement body
for an accepted submission. -/
def Response.to_api_response (r : Response) : List (String × DVal) :=
  [(("response_id"), DVal.str r.response_id),
   (("points_earned"), DVal.int 10)]

/-- The per-response dict built by `get_question_with_responses`
(`question.py:266`): only the fields present on the stored item. -/
def responseFields (r : Response) : List (String × DVal) :=
  (match r.answer with
   | .js a => [(("answer"), DVal.str a)]
   | _ => [])
  ++ (match r.selected_option with
      | .ji n => [(("selected_option"), DVal.int n)]
      | .jb b => [(("selected_option"), DVal.bool b)]
      | _ => [])
  ++ (match r.confidence with
      | .ji n => [(("confidence"), DVal.int n)]
      | .jb b => [(("confidence"), DVal.bool b)]
      | _ => [])

/-- `get_question_with_responses` (`question.py:249`): the question plus
the formatted dicts of every ledger row for that question id. -/
def get_question_with_responses (s : Store) (question_id : String) :
    Option Question × List (List (String × DVal)) :=
  match get_question s question_id with
  | none => (none, [])
  | some q =>
      (some q,
       (s.responses.filter (fun r => r.question_id = question_id)).map responseFields)

namespace AgentApi

/-- `handle_get_question` (`agent_questions.py:161`): agent polling GET.
Returns the stored question (stored status included, no expiry
evaluation) together with all responses. -/
def handle_get_question (s : Store) (question_id : String) : HttpResponse :=
  if question_id = "" then validation_error ("question_id is required in path")
  else
    match get_question_with_responses s question_id with
    | (none, _) => question_not_found
    | (some q, responses) => success (q.to_agent_response (some responses))

end AgentApi

namespace HumanApi

/-- `handle_get_question` (`human_api.py:130`): human detail GET. A
stored CLOSED/EXPIRED question is refused with 410; everything else is
served as answerable — no expiry evaluation against a clock occurs. -/
def handle_get_question (s : Store) (question_id : String) : HttpResponse :=
  if question_id = "" then validation_error ("question_id is required in path")
  else
    match get_question s question_id with
    | none => question_not_found
    | some question =>
        if question.status = .CLOSED ∨ question.status = .EXPIRED then
          question_closed
        else
          success (question.to_human_detail true)

/-- The parsed JSON body of POST /human/responses. `body.get(k)` yields
Python `None` (here `JVal.null`) when the key is absent. `question_id`
is kept as an optional string (the handlers only ever use it as a key
after a truthiness check). -/
structure SubmitBody where
  question_id : Option String := none
  answer : JVal := .null
  selected_option : JVal := .null
  confidence : JVal := .null

/-- Python truthiness of `question.options` (`if question.options and …`):
a list is truthy iff non-empty; `None` is falsy. -/
def optionsTruthy : Option (List String) → Bool
  | some l => !l.isEmpty
  | none => false

/-- `len(question.options)` with 0 for `None` (only evaluated in the
source under the truthiness guard). -/
def optionsLen : Option (List String) → Int
  | some l => l.length
  | none => 0

/-- Tail of `handle_submit_response` (`human_api.py:241` onward):
validate `confidence`, create and persist the Response, then recompute
the question's count and status via `update_question_status` with
`new_responses = current_responses + 1`. The generated response id is
modelled deterministically from the ledger length (the source draws a
UUID; only freshness matters). -/
def finishSubmit (s : Store) (question : Question) (question_id : String)
    (answer selected_option confidence : JVal)
    (fingerprint_hash : Option String) (now : Int) : HttpResponse × Store :=
  if confidence ≠ .null ∧
      (¬ pyIsInt confidence = true ∨ pyToInt confidence < 1 ∨ pyToInt confidence > 5) then
    (validation_error ("confidence must be between 1 and 5"), s)
  else
    let response : Response :=
      { question_id := question_id
        response_id := "r_" ++ toString s.responses.length
        created_at := now
        answer := answer
        selected_option := selected_option
        confidence := confidence
        fingerprint_hash := fingerprint_hash }
    let s1 := save_response s response
    let s2 := (update_question_status s1 question_id
      (question.current_responses + 1) question.min_responses now).2
    (created response.to_api_response, s2)

/-- `handle_submit_response` (`human_api.py:166`): POST /human/responses.
Mirrors the source's early-return structure: question_id check, fetch,
closed/expired rejection, per-type validation, confidence validation,
then persist response and update the question. -/
def handle_submit_response (s : Store) (fingerprint_hash : Option String)
    (body : SubmitBody) (now : Int) : HttpResponse × Store :=
  match body.question_id with
  | none => (validation_error ("question_id is required"), s)
  | some question_id =>
    if question_id = "" then (validation_error ("question_id is required"), s)
    else
      match get_question s question_id with
      | none => (question_not_found, s)
      | some question =>
        if question.status = .CLOSED ∨ question.status = .EXPIRED then
          (question_closed, s)
        else
          match question.type with
          | .text =>
            if ¬ pyTruthy body.answer = true ∨ ¬ pyIsStr body.answer = true then
              (validation_error ("answer is required for text questions"), s)
            else if pyStrLen body.answer > 5000 then
              (validation_error ("answer must be at most 5000 characters"), s)
            else
              finishSubmit s question question_id body.answer .null
                body.confidence fingerprint_hash now
          | .multiple_choice =>
            if body.selected_option = .null ∨ ¬ pyIsInt body.selected_option = true then
              (validation_error ("selected_option is required for multiple choice questions"), s)
            else if optionsTruthy question.options = true ∧
                (pyToInt body.selected_option < 0 ∨
                 pyToInt body.selected_option ≥ optionsLen question.options) then
              (validation_error ("selected_option must be in range"), s)
            else
              finishSubmit s question question_id .null body.selected_option
                body.confidence fingerprint_hash now

end HumanApi

/-- The `error.code` field of a response, when it is an error body. -/
def errorCode (r : HttpResponse) : Option String :=
  match r.body with
  | .errorBody c _ => some c
  | .jsonBody _ => none

/-- Lookup of a key in a JSON response body (none for error bodies). -/
def bodyField (r : HttpResponse) (k : String) : Option DVal :=
  match r.body with
  | .jsonBody fields => fields.lookup k
  | .errorBody _ _ => none

namespace Orchestrator

/-- The per-question state observed by one `client.get_question` call, as
used by `await_responses` (`orchestrator.py:198`): only `status` and
`current_responses` drive the loop. -/
structure QState where
  status : Status
  current_responses : Nat
deriving DecidableEq, Repr

/-- The done check of `await_responses` (`orchestrator.py:204`): a
question is done iff its status is CLOSED or EXPIRED or it has at least
`min_responses` responses. Note the check consults nothing else — in
particular no clock and no `expires_at`. -/
def questionDone (r : QState) (min_responses : Nat) : Bool :=
  r.status == .CLOSED || r.status == .EXPIRED ||
    decide (min_responses ≤ r.current_responses)

/-- Orchestrator configuration (`poll_interval`, `max_backoff`,
`backoff_multiplier` of `AskHumanOrchestrator.__init__`). Intervals are
rationals, the exact values of the float arithmetic in the scenarios. -/
structure OrchConfig where
  poll_interval : ℚ
  max_backoff : ℚ
  backoff_multiplier : ℚ

/-- The loop of `await_responses` (`orchestrator.py:198`), fuel-indexed.
`server k id` is the state returned by the `k`-th `poll_once` for
question `id` (fetches are instantaneous; the clock advances exactly by
the sleeps, mirroring `time.time()` / `time.sleep`). Returns the final
id→state map and the total number of `poll_once` calls, or `none` when
fuel runs out. The loop body is, in source order: poll, all-done check
(immediate return), timeout check (return of partial results, never an
exception), capped sleep `min(current_interval, timeout - elapsed)`,
backoff `min(current_interval * backoff_multiplier, max_backoff)`. -/
def await_responses_go (cfg : OrchConfig) (server : Nat → String → QState)
    (question_ids : List String) (min_responses : Nat) (timeout : ℚ)
    (fetchIdx : Nat) (elapsed : ℚ) (current_interval : ℚ) :
    Nat → Option (List (String × QState) × Nat)
  | 0 => none
  | fuel + 1 =>
    let results := question_ids.map (fun id => (id, server fetchIdx id))
    let all_done := results.all (fun p => questionDone p.2 min_responses)
    if all_done then some (results, fetchIdx + 1)
    else if elapsed ≥ timeout then some (results, fetchIdx + 1)
    else
      let remaining := timeout - elapsed
      let sleep_time := min current_interval remaining
      let elapsed' := if sleep_time > 0 then elapsed + sleep_time else elapsed
      let next_interval := min (current_interval * cfg.backoff_multiplier) cfg.max_backoff
      await_responses_go cfg server question_ids min_responses timeout
        (fetchIdx + 1) elapsed' next_interval fuel

/-- Entry point of `await_responses`: elapsed starts at 0 and the
interval starts at the configured base poll interval. -/
def await_responses (cfg : OrchConfig) (server : Nat → String → QState)
    (question_ids : List String) (min_responses : Nat) (timeout : ℚ)
    (fuel : Nat) : Option (List (String × QState) × Nat) :=
  await_responses_go cfg server question_ids min_responses timeout
    0 0 cfg.poll_interval fuel

end Orchestrator

/-- One externally-triggered operation on the backend: a response
submission or a read through either GET handler. The GET handlers are
read-only by construction (they return only an `HttpResponse`), so the
read operations leave the store untouched. -/
inductive Op where
  | submit (fp : Option String) (body : HumanApi.SubmitBody) (now : Int)
  | readAgent (question_id : String)
  | readHuman (question_id : String)

/-- The store after one operation. -/
def applyOp (s : Store) : Op → Store
  | .submit fp body now => (HumanApi.handle_submit_response s fp body now).2
  | .readAgent _ => s
  | .readHuman _ => s

/-- The store after a sequence of operations. -/
def runOps (s : Store) (ops : List Op) : Store :=
  ops.foldl applyOp s

/-- The forward order of the status lattice: OPEN → PARTIAL → CLOSED
(skips allowed), with CLOSED and EXPIRED terminal. -/
def statusForward : Status → Status → Bool
  | .OPEN, .OPEN => true
  | .OPEN, .PARTIAL => true
  | .OPEN, .CLOSED => true
  | .PARTIAL, .PARTIAL => true
  | .PARTIAL, .CLOSED => true
  | .CLOSED, .CLOSED => true
  | .EXPIRED, .EXPIRED => true
  | _, _ => false

/-! Concrete fixtures used by witnesses, counterexamples and code-bug
evaluations. -/

/-- The empty pair of tables. -/
def emptyStore : Store := ⟨fun _ => none, []⟩

/-- A text question stored as OPEN whose `expires_at` (100) is already in
the past at read time 200 (C3). -/
def qExpired : Question :=
  { question_id := "q_exp"
    prompt := "An expired question"
    type := .text
    status := .OPEN
    min_responses := 5
    current_responses := 0
    created_at := 0
    expires_at := 100 }

def storeExpired : Store := save_question emptyStore qExpired

/-- A MULTIPLE_CHOICE question with options ["A","B"] and three recorded
votes 0, 0, 1 (the vote-summary example of the spec, C4). -/
def qMC : Question :=
  { question_id := "q_mc"
    prompt := "A or B?"
    type := .multiple_choice
    status := .PARTIAL
    min_responses := 5
    current_responses := 3
    created_at := 0
    expires_at := 1000
    options := some [("A"), ("B")] }

def mcVote (i : Nat) (sel : Int) : Response :=
  { question_id := "q_mc"
    response_id := "r_" ++ toString i
    created_at := 10
    selected_option := .ji sel }

def storeMC : Store :=
  { questions := (save_question emptyStore qMC).questions
    responses := [mcVote 0 0, mcVote 1 0, mcVote 2 1] }

/-- A text question at `current_responses = 4` with threshold 5 (C7). -/
def qRace : Question :=
  { question_id := "q_race"
    prompt := "Race target"
    type := .text
    status := .PARTIAL
    min_responses := 5
    current_responses := 4
    created_at := 0
    expires_at := 1000 }

def storeRace : Store := save_question emptyStore qRace

/-- The lost-update interleaving of two concurrent accepts (C7): both
operations run `get_question` against the same pre-state (read–read),
then each persists its response and runs `update_question_status` with
`new_responses = observed current_responses + 1` (write–write), exactly
the read-modify-write sequence of `handle_submit_response`
(`human_api.py:198` and `human_api.py:261`) with no serialization
between the two. -/
def raceFinal : Store :=
  match get_question storeRace ("q_race"), get_question storeRace ("q_race") with
  | some qA, some qB =>
    let sA := save_response storeRace
      { question_id := "q_race", response_id := "r_a", created_at := 50,
        answer := .js ("first") }
    let sB := (update_question_status sA ("q_race")
      (qA.current_responses + 1) qA.min_responses 50).2
    let sC := save_response sB
      { question_id := "q_race", response_id := "r_b", created_at := 50,
        answer := .js ("second") }
    (update_question_status sC ("q_race")
      (qB.current_responses + 1) qB.min_responses 50).2
  | _, _ => storeRace

/-- A text question accepting submissions, used by witnesses. -/
def qText : Question :=
  { question_id := "q_txt"
    prompt := "Say something"
    type := .text
    status := .PARTIAL
    min_responses := 2
    current_responses := 1
    created_at := 0
    expires_at := 1000 }

def storeText : Store := save_question emptyStore qText

/-- A CLOSED question, used by the C2 witness. -/
def qClosed : Question :=
  { question_id := "q_closed"
    prompt := "Done"
    type := .text
    status := .CLOSED
    min_responses := 1
    current_responses := 1
    created_at := 0
    expires_at := 1000
    closed_at := some 7 }

def storeClosed : Store := save_question emptyStore qClosed

/-- Scenario server for C5: polls return OPEN(0), PARTIAL(1), then
CLOSED(2). -/
def serverC5 : Nat → String → Orchestrator.QState
  | 0, _ => ⟨.OPEN, 0⟩
  | 1, _ => ⟨.PARTIAL, 1⟩
  | _, _ => ⟨.CLOSED, 2⟩

/-- C5 scenario configuration: base interval 1 s, max backoff 5 s,
multiplier 1.5. -/
def cfgC5 : Orchestrator.OrchConfig := ⟨1, 5, 3/2⟩

/-- Scenario server for C6: the question stays OPEN with 0 responses. -/
def serverC6 : Nat → String → Orchestrator.QState := fun _ _ => ⟨.OPEN, 0⟩

/-- C6 scenario configuration: base interval 10 s (max backoff 300 s,
multiplier 1.5, the orchestrator defaults). -/
def cfgC6 : Orchestrator.OrchConfig := ⟨10, 300, 3/2⟩

/-- C3 (code bug): no reader evaluates expiry. `qExpired` is stored OPEN
with `expires_at = 100`, already past at read time 200, yet: the agent
GET serves it with status string "OPEN"; the human GET serves it as
answerable with HTTP 200 (not the 410 used for closed/expired
questions); and the orchestrator's done check classifies its polled
state as not done rather than as EXPIRED-and-done. None of
`get_question`, `handle_get_question` or the done check takes a clock at
all, and no code in the repository ever assigns the EXPIRED status, so
the claimed "treat as EXPIRED once now > expires_at" behaviour does not
exist. -/
theorem c3_readers_ignore_expiry :
    qExpired.expires_at < (200 : Int) ∧
    (AgentApi.handle_get_question storeExpired ("q_exp")).statusCode = 200 ∧
    bodyField (AgentApi.handle_get_question storeExpired ("q_exp")) ("status")
      = some (DVal.str ("OPEN")) ∧
    (HumanApi.handle_get_question storeExpired ("q_exp")).statusCode = 200 ∧
    Orchestrator.questionDone ⟨.OPEN, 0⟩ 5 = false := by
  refine ⟨by decide, rfl, rfl, rfl, rfl⟩

/-- C4 (code bug): the agent GET of the MULTIPLE_CHOICE question with
options ["A","B"] and recorded votes [0,0,1] returns the question and
its three responses, but its body contains no vote-summary entry at all
(the claim — and the spec's own example — require the summary
{"A": 2, "B": 1}). Neither `get_question_with_responses` nor
`Question.to_agent_response` computes any option→count mapping. -/
theorem c4_agent_get_has_no_vote_summary :
    (AgentApi.handle_get_question storeMC ("q_mc")).statusCode = 200 ∧
    bodyField (AgentApi.handle_get_question storeMC ("q_mc")) ("summary") = none ∧
    bodyField (AgentApi.handle_get_question storeMC ("q_mc")) ("responses")
      = some (DVal.dicts
          [[(("selected_option"), DVal.int 0)],
           [(("selected_option"), DVal.int 0)],
           [(("selected_option"), DVal.int 1)]]) := by
  refine ⟨rfl, rfl, rfl⟩

/-- C6 counterexample: in the timeout scenario (question permanently
OPEN with 0 responses, deadline 1 s, base interval 10 s) the loop
performs exactly TWO fetches, not one as claimed: after the first poll
it sleeps `min(10, 1) = 1` second, and the loop then polls again before
the `elapsed >= timeout` check returns. -/
theorem c6_counterexample_single_fetch :
    Orchestrator.await_responses cfgC6 serverC6 [("q")] 1 1 3
      = some ([(("q"), ⟨.OPEN, 0⟩)], 2) ∧
    (¬ ∃ m, Orchestrator.await_responses cfgC6 serverC6 [("q")] 1 1 3
      = some (m, 1)) := by
  have hrun : Orchestrator.await_responses cfgC6 serverC6 [("q")] 1 1 3
      = some ([(("q"), ⟨.OPEN, 0⟩)], 2) := by
    norm_num [Orchestrator.await_responses, Orchestrator.await_responses_go,
      Orchestrator.questionDone, cfgC6, serverC6]
    exact ⟨by decide, by decide⟩
  refine ⟨hrun, ?_⟩
  rintro ⟨m, h⟩
  rw [hrun] at h
  simp at h

/-- C6 (amended): in the timeout scenario the orchestrator performs
exactly two fetches — it sleeps the remaining 1 s after the first poll
and re-polls once before the timeout check fires — and returns the
OPEN(0) state normally (a `some` result: the partial-result path, no
exception). -/
theorem c6_timeout_two_fetches_returns_open :
    Orchestrator.await_responses cfgC6 serverC6 [("q")] 1 1 3
      = some ([(("q"), ⟨.OPEN, 0⟩)], 2) := by
  norm_num [Orchestrator.await_responses, Orchestrator.await_responses_go,
    Orchestrator.questionDone, cfgC6, serverC6]
  exact ⟨by decide, by decide⟩

/-- C5: (1) the done check of `await_responses` holds exactly when the
polled status is CLOSED or EXPIRED or at least the caller-supplied
`min_responses` responses arrived; (2) whenever every tracked question's
polled state is done, the loop returns the full id→state map of that
very poll immediately — the fetch count is `k + 1` and the recursion
stops, so no further sleep or fetch happens; (3) the spec's scenario:
polls OPEN(0), PARTIAL(1), CLOSED(2) with threshold 2, base interval
1 s, max backoff 5 s, deadline 10 s perform exactly 3 fetches and return
the CLOSED state. -/
theorem c5_done_questions_return_immediately :
    (∀ (r : Orchestrator.QState) (minr : Nat),
        Orchestrator.questionDone r minr = true ↔
          (r.status = .CLOSED ∨ r.status = .EXPIRED ∨
           minr ≤ r.current_responses)) ∧
    (∀ (cfg : Orchestrator.OrchConfig)
        (server : Nat → String → Orchestrator.QState)
        (ids : List String) (minr : Nat) (timeout : ℚ) (k : Nat)
        (elapsed interval : ℚ) (fuel : Nat),
        (∀ id ∈ ids, Orchestrator.questionDone (server k id) minr = true) →
        Orchestrator.await_responses_go cfg server ids minr timeout k
            elapsed interval (fuel + 1)
          = some (ids.map (fun id => (id, server k id)), k + 1)) ∧
    Orchestrator.await_responses cfgC5 serverC5 [("q")] 2 10 5
      = some ([(("q"), ⟨.CLOSED, 2⟩)], 3) := by
  refine ⟨?_, ?_, ?_⟩
  · intro r minr
    simp [Orchestrator.questionDone, Bool.or_eq_true, beq_iff_eq,
      decide_eq_true_eq, or_assoc]
  · intro cfg server ids minr timeout k elapsed interval fuel h
    have hall : (ids.map (fun id => (id, server k id))).all
        (fun p => Orchestrator.questionDone p.2 minr) = true := by
      refine List.all_eq_true.mpr ?_
      intro p hp
      obtain ⟨id, hid, rfl⟩ := List.mem_map.mp hp
      exact h id hid
    simp [Orchestrator.await_responses_go, hall]
  · norm_num [Orchestrator.await_responses, Orchestrator.await_responses_go,
      Orchestrator.questionDone, cfgC5, serverC5]
    decide

/-- Witness for C5: at the third poll (`k = 2`) of the scenario server
the tracked question's state is done, and the loop applied there
returns the CLOSED(2) map with fetch count 3. -/
theorem c5_witness :
    (∀ id ∈ [("q")],
      Orchestrator.questionDone (serverC5 2 id) 2 = true) ∧
    Orchestrator.await_responses_go cfgC5 serverC5 [("q")] 2 10 2
        (5/2) (9/4) 8
      = some ([(("q"), ⟨.CLOSED, 2⟩)], 3) := by
  have h : ∀ id ∈ [("q")],
      Orchestrator.questionDone (serverC5 2 id) 2 = true := by
    intro id hid
    rcases List.mem_singleton.mp hid with rfl
    decide
  exact ⟨h, c5_done_questions_return_immediately.2.1 cfgC5 serverC5
    [("q")] 2 10 2 (5/2) (9/4) 7 h⟩

/-- C7 (code bug): the lost update. Both interleaved accepts observe
`current_responses = 4` on `q_race` (threshold 5); each then writes
`observed + 1 = 5` unconditionally, so the question ends CLOSED with
`current_responses = 5` — not 6 — even though both responses were
appended to the ledger (2 rows). The unsynchronized read-modify-write of
`handle_submit_response` / `update_question_status` has no conditional
update or per-key lock, so this interleaving is admissible. -/
theorem c7_lost_update :
    (get_question storeRace ("q_race")).map (fun q => q.current_responses)
      = some 4 ∧
    (get_question raceFinal ("q_race")).map
        (fun q => (q.current_responses, q.status)) = some (5, .CLOSED) ∧
    raceFinal.responses.length = 2 ∧
    ¬ (get_question raceFinal ("q_race")).map (fun q => q.current_responses)
      = some 6 := by
  refine ⟨rfl, rfl, rfl, ?_⟩
  rw [show (get_question raceFinal ("q_race")).map (fun q => q.current_responses)
      = some 5 from rfl]
  simp

/-- C2: submitting to a stored CLOSED or EXPIRED question is refused
with the QUESTION_CLOSED error (HTTP 410) and the store is returned
untouched: no Response enters the ledger and the question's fields
(`current_responses`, `status`, `closed_at`) are unchanged, since the
handler returns before `save_response` / `update_question_status`. -/
theorem c2_closed_or_expired_submission_refused
    (s : Store) (fp : Option String) (body : HumanApi.SubmitBody)
    (now : Int) (qid : String) (q : Question)
    (hqid : body.question_id = some qid) (hne : qid ≠ "")
    (hget : get_question s qid = some q)
    (hst : q.status = .CLOSED ∨ q.status = .EXPIRED) :
    HumanApi.handle_submit_response s fp body now = (question_closed, s) ∧
    question_closed.statusCode = 410 ∧
    errorCode question_closed = some ("QUESTION_CLOSED") := by
  refine ⟨?_, rfl, rfl⟩
  unfold HumanApi.handle_submit_response
  simp only [hqid, hget, if_neg hne]
  rw [if_pos hst]

/-- Witness for C2: the concrete CLOSED question `qClosed` refuses a
well-formed text submission with 410 QUESTION_CLOSED and an unchanged
store. -/
theorem c2_witness :
    HumanApi.handle_submit_response storeClosed none
        ⟨some ("q_closed"), .js ("hi"), .null, .null⟩ 5
      = (question_closed, storeClosed) ∧
    question_closed.statusCode = 410 ∧
    errorCode question_closed = some ("QUESTION_CLOSED") :=
  c2_closed_or_expired_submission_refused storeClosed none
    ⟨some ("q_closed"), .js ("hi"), .null, .null⟩ 5 ("q_closed") qClosed
    rfl (by decide) rfl (Or.inl rfl)

/-- C9: for a MULTIPLE_CHOICE question with a non-empty options list, a
submission with `selected_option = len(options)` and one with
`selected_option = -1` are both rejected by the range check with a 400
VALIDATION_ERROR, and the store is returned untouched (no Response is
persisted). -/
theorem c9_out_of_range_selected_option_rejected
    (s : Store) (fp : Option String) (now : Int) (qid : String)
    (q : Question) (opts : List String) (ans conf : JVal)
    (hne : qid ≠ "") (hget : get_question s qid = some q)
    (hopen : ¬(q.status = .CLOSED ∨ q.status = .EXPIRED))
    (htype : q.type = .multiple_choice)
    (hopts : q.options = some opts) (hnonempty : opts ≠ []) :
    HumanApi.handle_submit_response s fp
        ⟨some qid, ans, .ji (opts.length : Int), conf⟩ now
      = (validation_error ("selected_option must be in range"), s) ∧
    HumanApi.handle_submit_response s fp
        ⟨some qid, ans, .ji (-1), conf⟩ now
      = (validation_error ("selected_option must be in range"), s) ∧
    (validation_error ("selected_option must be in range")).statusCode = 400 ∧
    errorCode (validation_error ("selected_option must be in range"))
      = some ("VALIDATION_ERROR") := by
  have hT : HumanApi.optionsTruthy (some opts) = true := by
    cases opts with
    | nil => exact absurd rfl hnonempty
    | cons a l => rfl
  have hL : HumanApi.optionsLen (some opts) = (opts.length : Int) := rfl
  refine ⟨?_, ?_, rfl, rfl⟩
  · unfold HumanApi.handle_submit_response
    simp [hne, hget, hopen, htype, hopts, hT, hL, pyIsInt, pyToInt]
  · unfold HumanApi.handle_submit_response
    simp [hne, hget, hopen, htype, hopts, hT, hL, pyIsInt, pyToInt]

/-- `statusForward` is reflexive. -/
lemma statusForward_refl (a : Status) : statusForward a a = true := by
  cases a <;> rfl

/-- `statusForward` is transitive. -/
lemma statusForward_trans (a b c : Status) (h1 : statusForward a b = true)
    (h2 : statusForward b c = true) : statusForward a c = true := by
  revert h1 h2
  cases a <;> cases b <;> cases c <;> decide

/-- CLOSED and EXPIRED are terminal for `statusForward`. -/
lemma statusForward_terminal (b : Status) :
    (statusForward .CLOSED b = true → b = .CLOSED) ∧
    (statusForward .EXPIRED b = true → b = .EXPIRED) := by
  cases b <;> decide

/-- Effect of `update_question_status` on the updated key: the stored
question gets the new count, the status computed by the source's
if-chain, and `closed_at` stamped iff the question closes. -/
lemma update_question_status_lookup (s : Store) (qid : String)
    (n m : Nat) (now : Int) (q : Question)
    (h : get_question s qid = some q) :
    get_question (update_question_status s qid n m now).2 qid
      = some { q with
          current_responses := n
          status := if m ≤ n then .CLOSED
            else if 0 < n then .PARTIAL else .OPEN
          closed_at := if m ≤ n then some now else q.closed_at } := by
  simp only [get_question] at h
  by_cases hnm : m ≤ n
  · simp [update_question_status, get_question, h, hnm]
  · by_cases hn0 : 0 < n
    · simp [update_question_status, get_question, h, hnm, hn0]
    · simp [update_question_status, get_question, h, hnm, hn0]

/-- Effect of `update_question_status` on every other key: untouched. -/
lemma update_question_status_lookup_ne (s : Store) (qid id : String)
    (n m : Nat) (now : Int) (hne : id ≠ qid) :
    get_question (update_question_status s qid n m now).2 id
      = get_question s id := by
  simp [update_question_status, get_question, hne]

/-- When the confidence check passes, `finishSubmit` returns 201 with
the acknowledgement and the store after appending the Response and
running `update_question_status` with `new_responses =
current_responses + 1`. -/
lemma finishSubmit_created (s : Store) (question : Question)
    (qid : String) (ans so conf : JVal) (fp : Option String) (now : Int)
    (hconf : ¬(conf ≠ .null ∧
      (¬ pyIsInt conf = true ∨ pyToInt conf < 1 ∨ pyToInt conf > 5))) :
    HumanApi.finishSubmit s question qid ans so conf fp now
      = (created (Response.to_api_response
          { question_id := qid
            response_id := "r_" ++ toString s.responses.length
            created_at := now
            answer := ans
            selected_option := so
            confidence := conf
            fingerprint_hash := fp }),
         (update_question_status
            (save_response s
              { question_id := qid
                response_id := "r_" ++ toString s.responses.length
                created_at := now
                answer := ans
                selected_option := so
                confidence := conf
                fingerprint_hash := fp })
            qid (question.current_responses + 1)
            question.min_responses now).2) := by
  unfold HumanApi.finishSubmit
  rw [if_neg hconf]

/-- Whenever `finishSubmit` answers 201, the submitted question's stored
item afterwards carries count `current_responses + 1` and the status
CLOSED (with `closed_at = now`) or PARTIAL per the threshold. -/
lemma finishSubmit_201_store (s : Store) (question : Question)
    (qid : String) (ans so conf : JVal) (fp : Option String) (now : Int)
    (resp : HttpResponse) (s' : Store) (q : Question)
    (hget : get_question s qid = some q)
    (hrun : HumanApi.finishSubmit s question qid ans so conf fp now
      = (resp, s'))
    (h201 : resp.statusCode = 201) :
    get_question s' qid = some { q with
      current_responses := question.current_responses + 1
      status := if question.min_responses ≤ question.current_responses + 1
        then .CLOSED else .PARTIAL
      closed_at := if question.min_responses ≤ question.current_responses + 1
        then some now else q.closed_at } := by
  unfold HumanApi.finishSubmit at hrun
  by_cases hconf : conf ≠ .null ∧
      (¬ pyIsInt conf = true ∨ pyToInt conf < 1 ∨ pyToInt conf > 5)
  · rw [if_pos hconf] at hrun
    injection hrun with h1 _
    rw [← h1] at h201
    simp [validation_error] at h201
  · rw [if_neg hconf] at hrun
    injection hrun with _ h2
    subst h2
    have hstep := update_question_status_lookup
      (save_response s
        { question_id := qid
          response_id := "r_" ++ toString s.responses.length
          created_at := now
          answer := ans
          selected_option := so
          confidence := conf
          fingerprint_hash := fp })
      qid (question.current_responses + 1) question.min_responses now q hget
    simpa using hstep

/-- Witness for C9: `qMC` (options ["A","B"], status PARTIAL) rejects
`selected_option = 2` and `selected_option = -1` with a 400
VALIDATION_ERROR and an unchanged store. -/
theorem c9_witness :
    HumanApi.handle_submit_response storeMC none
        ⟨some ("q_mc"), .null, .ji 2, .null⟩ 9
      = (validation_error ("selected_option must be in range"), storeMC) ∧
    HumanApi.handle_submit_response storeMC none
        ⟨some ("q_mc"), .null, .ji (-1), .null⟩ 9
      = (validation_error ("selected_option must be in range"), storeMC) := by
  have h := c9_out_of_range_selected_option_rejected storeMC none 9
    ("q_mc") qMC [("A"), ("B")] .null .null (by decide) rfl (by decide)
    rfl rfl (by decide)
  exact ⟨h.1, h.2.1⟩

/-- C10: because Python's `bool` is a subclass of `int`, the
`isinstance(selected_option, int)` check accepts a JSON boolean. For any
multiple-choice question with at least 2 options, a submission with
`selected_option = true` passes the type check (`pyIsInt` is true on
booleans), passes the range check as the integer 1, is accepted with
HTTP 201, and is persisted to the ledger with the boolean value — which
Python counts as option index 1 (`True == 1`). -/
theorem c10_bool_selected_option_accepted
    (s : Store) (fp : Option String) (now : Int) (qid : String)
    (q : Question) (opts : List String)
    (hne : qid ≠ "") (hget : get_question s qid = some q)
    (hopen : ¬(q.status = .CLOSED ∨ q.status = .EXPIRED))
    (htype : q.type = .multiple_choice)
    (hopts : q.options = some opts) (hlen : 2 ≤ opts.length) :
    pyIsInt (.jb true) = true ∧
    pyToInt (.jb true) = 1 ∧
    (HumanApi.handle_submit_response s fp
        ⟨some qid, .null, .jb true, .null⟩ now).1.statusCode = 201 ∧
    ((HumanApi.handle_submit_response s fp
        ⟨some qid, .null, .jb true, .null⟩ now).2).responses
      = s.responses ++
        [{ question_id := qid
           response_id := "r_" ++ toString s.responses.length
           created_at := now
           answer := .null
           selected_option := .jb true
           confidence := .null
           fingerprint_hash := fp }] ∧
    (0 ≤ pyToInt (.jb true) ∧
     pyToInt (.jb true) < HumanApi.optionsLen (some opts)) := by
  have hT : HumanApi.optionsTruthy (some opts) = true := by
    cases opts with
    | nil => simp at hlen
    | cons a l => rfl
  have hlt : (1 : Int) < HumanApi.optionsLen (some opts) := by
    simp only [HumanApi.optionsLen]
    exact_mod_cast hlen
  have hnge : ¬((1 : Int) ≥ HumanApi.optionsLen (some opts)) :=
    not_le.mpr hlt
  have hrun : HumanApi.handle_submit_response s fp
      ⟨some qid, .null, .jb true, .null⟩ now
      = (created (Response.to_api_response
          { question_id := qid
            response_id := "r_" ++ toString s.responses.length
            created_at := now
            answer := .null
            selected_option := .jb true
            confidence := .null
            fingerprint_hash := fp }),
         (update_question_status
            (save_response s
              { question_id := qid
                response_id := "r_" ++ toString s.responses.length
                created_at := now
                answer := .null
                selected_option := .jb true
                confidence := .null
                fingerprint_hash := fp })
            qid (q.current_responses + 1) q.min_responses now).2) := by
    unfold HumanApi.handle_submit_response
    simp only [hget, if_neg hne, htype, hopts]
    rw [if_neg hopen]
    rw [if_neg (by simp [pyIsInt])]
    rw [if_neg (by
      rintro ⟨_, hcase⟩
      rcases hcase with hlt0 | hge
      · norm_num [pyToInt] at hlt0
      · rw [show pyToInt (.jb true) = 1 from rfl] at hge
        exact hnge hge)]
    exact finishSubmit_created s q qid .null (.jb true) .null fp now
      (by simp [pyIsInt])
  refine ⟨rfl, rfl, ?_, ?_, by decide, hlt⟩
  · rw [hrun]
    rfl
  · rw [hrun]
    simp [update_question_status, save_response]

/-- Witness for C10: the concrete MC question `qMC` accepts
`selected_option = true`, answers 201, and appends the boolean response
to the ledger. -/
theorem c10_witness :
    pyIsInt (.jb true) = true ∧
    pyToInt (.jb true) = 1 ∧
    (HumanApi.handle_submit_response storeMC none
        ⟨some ("q_mc"), .null, .jb true, .null⟩ 9).1.statusCode = 201 ∧
    ((HumanApi.handle_submit_response storeMC none
        ⟨some ("q_mc"), .null, .jb true, .null⟩ 9).2).responses
      = storeMC.responses ++
        [{ question_id := "q_mc"
           response_id := "r_" ++ toString storeMC.responses.length
           created_at := 9
           answer := .null
           selected_option := .jb true
           confidence := .null
           fingerprint_hash := none }] ∧
    (0 ≤ pyToInt (.jb true) ∧
     pyToInt (.jb true) < HumanApi.optionsLen (some [("A"), ("B")])) :=
  c10_bool_selected_option_accepted storeMC none 9 ("q_mc") qMC
    [("A"), ("B")] (by decide) rfl (by decide) rfl rfl (by decide)

/-- C1: whenever `handle_submit_response` accepts a submission (HTTP
201) for a question currently holding `current_responses` responses, it
calls `update_question_status` with `new_responses = N =
current_responses + 1`, and the stored question afterwards has count N
and status CLOSED with `closed_at = now` if `N ≥ min_responses`, else
status PARTIAL (N ≥ 1 > 0 always holds for an accepted response). -/
theorem c1_nth_accepted_response_status
    (s : Store) (fp : Option String) (body : HumanApi.SubmitBody)
    (now : Int) (qid : String) (q : Question)
    (resp : HttpResponse) (s' : Store)
    (hqid : body.question_id = some qid) (hne : qid ≠ "")
    (hget : get_question s qid = some q)
    (hrun : HumanApi.handle_submit_response s fp body now = (resp, s'))
    (h201 : resp.statusCode = 201) :
    get_question s' qid = some { q with
      current_responses := q.current_responses + 1
      status := if q.min_responses ≤ q.current_responses + 1
        then .CLOSED else .PARTIAL
      closed_at := if q.min_responses ≤ q.current_responses + 1
        then some now else q.closed_at } ∧
    (q.min_responses ≤ q.current_responses + 1 →
      ∃ q', get_question s' qid = some q' ∧
        q'.status = .CLOSED ∧ q'.closed_at = some now) ∧
    (q.current_responses + 1 < q.min_responses →
      ∃ q', get_question s' qid = some q' ∧ q'.status = .PARTIAL) := by
  have hmain : get_question s' qid = some { q with
      current_responses := q.current_responses + 1
      status := if q.min_responses ≤ q.current_responses + 1
        then .CLOSED else .PARTIAL
      closed_at := if q.min_responses ≤ q.current_responses + 1
        then some now else q.closed_at } := by
    unfold HumanApi.handle_submit_response at hrun
    simp only [hqid, hget, if_neg hne] at hrun
    by_cases hst : q.status = .CLOSED ∨ q.status = .EXPIRED
    · rw [if_pos hst] at hrun
      injection hrun with h1 _
      rw [← h1] at h201
      simp [question_closed] at h201
    · rw [if_neg hst] at hrun
      cases htq : q.type with
      | text =>
        simp only [htq] at hrun
        by_cases ha1 : ¬ pyTruthy body.answer = true ∨
            ¬ pyIsStr body.answer = true
        · rw [if_pos ha1] at hrun
          injection hrun with h1 _
          rw [← h1] at h201
          simp [validation_error] at h201
        · rw [if_neg ha1] at hrun
          by_cases ha2 : pyStrLen body.answer > 5000
          · rw [if_pos ha2] at hrun
            injection hrun with h1 _
            rw [← h1] at h201
            simp [validation_error] at h201
          · rw [if_neg ha2] at hrun
            have hfin := finishSubmit_201_store s q qid body.answer .null
              body.confidence fp now resp s' q hget hrun h201
            rw [htq] at hfin
            exact hfin
      | multiple_choice =>
        simp only [htq] at hrun
        by_cases hm1 : body.selected_option = .null ∨
            ¬ pyIsInt body.selected_option = true
        · rw [if_pos hm1] at hrun
          injection hrun with h1 _
          rw [← h1] at h201
          simp [validation_error] at h201
        · rw [if_neg hm1] at hrun
          by_cases hm2 : HumanApi.optionsTruthy q.options = true ∧
              (pyToInt body.selected_option < 0 ∨
               pyToInt body.selected_option ≥ HumanApi.optionsLen q.options)
          · rw [if_pos hm2] at hrun
            injection hrun with h1 _
            rw [← h1] at h201
            simp [validation_error] at h201
          · rw [if_neg hm2] at hrun
            have hfin := finishSubmit_201_store s q qid .null
              body.selected_option body.confidence fp now resp s' q hget
              hrun h201
            rw [htq] at hfin
            exact hfin
  refine ⟨hmain, ?_, ?_⟩
  · intro hcl
    refine ⟨_, hmain, ?_, ?_⟩ <;> simp [hcl]
  · intro hlt
    refine ⟨_, hmain, ?_⟩
    simp [not_le.mpr hlt]

/-- Witness for C1: submitting the 2nd response to `qText` (threshold 2)
is accepted and closes the question with `closed_at` stamped. -/
theorem c1_witness :
    ∃ q', get_question (HumanApi.handle_submit_response storeText none
        ⟨some ("q_txt"), .js ("hello"), .null, .null⟩ 11).2 ("q_txt")
      = some q' ∧ q'.status = .CLOSED ∧ q'.closed_at = some 11 :=
  (c1_nth_accepted_response_status storeText none
    ⟨some ("q_txt"), .js ("hello"), .null, .null⟩ 11 ("q_txt") qText
    (HumanApi.handle_submit_response storeText none
      ⟨some ("q_txt"), .js ("hello"), .null, .null⟩ 11).1
    (HumanApi.handle_submit_response storeText none
      ⟨some ("q_txt"), .js ("hello"), .null, .null⟩ 11).2
    rfl (by decide) rfl rfl (by decide)).2.1 (by decide)

/-- Monotonicity of the tail of an accepted submission: whatever
question we track, after `finishSubmit` its status has only moved
forward and its count has not decreased (the submitted question must not
be CLOSED or EXPIRED, which the caller checked). -/
lemma finishSubmit_monotone (s : Store) (question : Question)
    (qid' : String) (ans so conf : JVal) (fp : Option String) (now : Int)
    (qid : String) (q : Question)
    (h : get_question s qid = some q)
    (hget' : get_question s qid' = some question)
    (hc : question.status ≠ .CLOSED) (he : question.status ≠ .EXPIRED) :
    ∃ q', get_question
        ((HumanApi.finishSubmit s question qid' ans so conf fp now).2) qid
      = some q' ∧
      statusForward q.status q'.status = true ∧
      q.current_responses ≤ q'.current_responses := by
  unfold HumanApi.finishSubmit
  by_cases hconf : conf ≠ .null ∧
      (¬ pyIsInt conf = true ∨ pyToInt conf < 1 ∨ pyToInt conf > 5)
  · rw [if_pos hconf]
    exact ⟨q, h, statusForward_refl _, le_refl _⟩
  · rw [if_neg hconf]
    by_cases hqq : qid = qid'
    · subst hqq
      have hq : question = q := by
        rw [h] at hget'
        injection hget' with hv
        exact hv.symm
      subst hq
      have hstep := update_question_status_lookup
        (save_response s
          { question_id := qid
            response_id := "r_" ++ toString s.responses.length
            created_at := now
            answer := ans
            selected_option := so
            confidence := conf
            fingerprint_hash := fp })
        qid (question.current_responses + 1) question.min_responses now
        question h
      refine ⟨_, hstep, ?_, ?_⟩
      · have hb : (if question.min_responses ≤ question.current_responses + 1
            then Status.CLOSED
            else if 0 < question.current_responses + 1
              then Status.PARTIAL else Status.OPEN)
            = Status.CLOSED ∨
            (if question.min_responses ≤ question.current_responses + 1
            then Status.CLOSED
            else if 0 < question.current_responses + 1
              then Status.PARTIAL else Status.OPEN)
            = Status.PARTIAL := by
          by_cases hm : question.min_responses ≤ question.current_responses + 1
          · exact Or.inl (by rw [if_pos hm])
          · refine Or.inr ?_
            rw [if_neg hm, if_pos (Nat.succ_pos _)]
        have hfwd : ∀ st b : Status, st ≠ .CLOSED → st ≠ .EXPIRED →
            (b = .CLOSED ∨ b = .PARTIAL) → statusForward st b = true := by
          intro st b h1 h2 h3
          cases st <;> cases b <;> simp_all [statusForward]
        exact hfwd question.status _ hc he hb
      · exact Nat.le_succ _
    · refine ⟨q, ?_, statusForward_refl _, le_refl _⟩
      exact (update_question_status_lookup_ne _ qid' qid _ _ now hqq).trans h

/-- Monotonicity of one backend operation: the tracked question's status
only moves forward, and its count never decreases. Every rejection path
of `handle_submit_response` leaves the store untouched; the accepted
path goes through `finishSubmit`. -/
lemma applyOp_monotone (s : Store) (op : Op) (qid : String) (q : Question)
    (h : get_question s qid = some q) :
    ∃ q', get_question (applyOp s op) qid = some q' ∧
      statusForward q.status q'.status = true ∧
      q.current_responses ≤ q'.current_responses := by
  cases op with
  | readAgent _ => exact ⟨q, h, statusForward_refl _, le_refl _⟩
  | readHuman _ => exact ⟨q, h, statusForward_refl _, le_refl _⟩
  | submit fp body now =>
    show ∃ q', get_question
        ((HumanApi.handle_submit_response s fp body now).2) qid = some q' ∧ _
    unfold HumanApi.handle_submit_response
    cases hbq : body.question_id with
    | none => exact ⟨q, h, statusForward_refl _, le_refl _⟩
    | some qid' =>
      dsimp only
      by_cases hq'' : qid' = ""
      · rw [if_pos hq'']
        exact ⟨q, h, statusForward_refl _, le_refl _⟩
      · rw [if_neg hq'']
        cases hg : get_question s qid' with
        | none =>
          dsimp only
          exact ⟨q, h, statusForward_refl _, le_refl _⟩
        | some question =>
          dsimp only
          by_cases hst : question.status = .CLOSED ∨
              question.status = .EXPIRED
          · rw [if_pos hst]
            exact ⟨q, h, statusForward_refl _, le_refl _⟩
          · rw [if_neg hst]
            obtain ⟨hc, he⟩ := not_or.mp hst
            cases htq : question.type with
            | text =>
              dsimp only
              by_cases h1 : ¬ pyTruthy body.answer = true ∨
                  ¬ pyIsStr body.answer = true
              · rw [if_pos h1]
                exact ⟨q, h, statusForward_refl _, le_refl _⟩
              · rw [if_neg h1]
                by_cases h2 : pyStrLen body.answer > 5000
                · rw [if_pos h2]
                  exact ⟨q, h, statusForward_refl _, le_refl _⟩
                · rw [if_neg h2]
                  exact finishSubmit_monotone s question qid' body.answer
                    .null body.confidence fp now qid q h hg hc he
            | multiple_choice =>
              dsimp only
              by_cases h1 : body.selected_option = .null ∨
                  ¬ pyIsInt body.selected_option = true
              · rw [if_pos h1]
                exact ⟨q, h, statusForward_refl _, le_refl _⟩
              · rw [if_neg h1]
                by_cases h2 : HumanApi.optionsTruthy question.options = true ∧
                    (pyToInt body.selected_option < 0 ∨
                     pyToInt body.selected_option
                       ≥ HumanApi.optionsLen question.options)
                · rw [if_pos h2]
                  exact ⟨q, h, statusForward_refl _, le_refl _⟩
                · rw [if_neg h2]
                  exact finishSubmit_monotone s question qid' .null
                    body.selected_option body.confidence fp now qid q h hg
                    hc he

/-- C8: along any sequence of backend operations (submissions and
reads) after the tracked question exists, its status only moves forward
along OPEN → PARTIAL → CLOSED, a CLOSED question stays CLOSED, an
EXPIRED question stays EXPIRED, and `current_responses` never
decreases. -/
theorem c8_lifecycle_monotone (s : Store) (ops : List Op) (qid : String)
    (q : Question) (h : get_question s qid = some q) :
    ∃ q', get_question (runOps s ops) qid = some q' ∧
      statusForward q.status q'.status = true ∧
      (q.status = .CLOSED → q'.status = .CLOSED) ∧
      (q.status = .EXPIRED → q'.status = .EXPIRED) ∧
      q.current_responses ≤ q'.current_responses := by
  have main : ∀ (ops : List Op) (s : Store) (q : Question),
      get_question s qid = some q →
      ∃ q', get_question (runOps s ops) qid = some q' ∧
        statusForward q.status q'.status = true ∧
        q.current_responses ≤ q'.current_responses := by
    intro ops
    induction ops with
    | nil =>
      intro s q h
      exact ⟨q, h, statusForward_refl _, le_refl _⟩
    | cons op rest ih =>
      intro s q h
      obtain ⟨q1, h1, hf1, hc1⟩ := applyOp_monotone s op qid q h
      obtain ⟨q2, h2, hf2, hc2⟩ := ih (applyOp s op) q1 h1
      exact ⟨q2, h2, statusForward_trans _ _ _ hf1 hf2,
        le_trans hc1 hc2⟩
  obtain ⟨q', h', hf, hcnt⟩ := main ops s q h
  refine ⟨q', h', hf, ?_, ?_, hcnt⟩
  · intro hcl
    rw [hcl] at hf
    exact (statusForward_terminal q'.status).1 hf
  · intro hex
    rw [hex] at hf
    exact (statusForward_terminal q'.status).2 hf

/-- Witness for C8: starting from `qText` (PARTIAL, 1 response), an
accepted submission followed by an agent read keep the lifecycle
monotone. -/
theorem c8_witness :
    ∃ q', get_question (runOps storeText
        [Op.submit none ⟨some ("q_txt"), .js ("hi"), .null, .null⟩ 3,
         Op.readAgent ("q_txt")]) ("q_txt") = some q' ∧
      statusForward qText.status q'.status = true ∧
      (qText.status = .CLOSED → q'.status = .CLOSED) ∧
      (qText.status = .EXPIRED → q'.status = .EXPIRED) ∧
      qText.current_responses ≤ q'.current_responses :=
  c8_lifecycle_monotone storeText
    [Op.submit none ⟨some ("q_txt"), .js ("hi"), .null, .null⟩ 3,
     Op.readAgent ("q_txt")] ("q_txt") qText rfl

end AskAHuman
